import Mathlib

/-
Verification of the sharedpotato shared-cell primitive.

The definitions below are a shallow embedding of the Python sources:
  src/sharedpotato/sharedobj.py   (AsyncSharedObject, CleanupTasks,
                                   acquire_lock_with_timeout, exceptions)
  src/sharedpotato/exclusive.py   (acquire_lock_with_timeout; same body as
                                   the sharedobj.py copy in every respect
                                   modelled here)
  src/sharedpotato/sentinels.py   (INVALID sentinel)

Modelling conventions:
  * A cell's slot content (`self._obj`) is a `RawValue`: the INVALID
    sentinel, Python `None`, or an ordinary value.
  * asyncio events are Booleans (`set` = true); the `_updated` event of the
    cell is the `updated` field.
  * Each operation is a pure function of the cell state plus oracles for
    the nondeterministic environment: whether lock acquisition times out,
    and how a handler behaves (synchronous, completing coroutine, timing
    out, raising).  The ordered side effects inside/after the critical
    section are returned as a trace of `Ev` events.
  * asyncio coroutine objects are single-shot: `asyncio.wait_for` wraps the
    coroutine in a task and, on timeout, cancels that task (awaiting the
    cancellation) before raising `TimeoutError`, so the coroutine has
    already been consumed; a task later created from the same coroutine
    object fails at its first step with
    `RuntimeError: cannot reuse already awaited coroutine`.  `TaskFate`
    records this distinction.
  * The source's call sites pass `acquire_lock_with_timeout` positional
    arguments although every parameter after the lock is keyword-only; the
    embedding models the evident intended binding (lock, method name,
    `after_set := self._updated` in `set`, the per-call timeout), which is
    the binding used by the spec.
-/

namespace SharedPotato

/-- Slot content of a cell: the INVALID sentinel (sentinels.py INVALID /
AsyncSharedObject.INVALID_VALUE), Python None, or an ordinary value. -/
inductive RawValue (T : Type) where
  | invalid : RawValue T
  | pynone : RawValue T
  | val : T → RawValue T
  deriving DecidableEq

/-- Exceptions of sharedobj.py / exceptions.py that the modelled operations
can surface, plus the RuntimeError a re-used coroutine produces. -/
inductive PyErr where
  | sharedObjectClosed
  | lockTimeout
  | handlerTimeout
  | runtimeReuseError
  deriving DecidableEq

/-- Membership of the asyncio.TimeoutError exception family: LockTimeout
and HandlerTimeout both subclass asyncio.TimeoutError (exceptions.py:37-45,
sharedobj.py:300-307); SharedObjectClosed is a plain Exception and the
coroutine-reuse RuntimeError is unrelated. -/
def is_asyncio_timeout : PyErr → Bool
  | PyErr.lockTimeout => true
  | PyErr.handlerTimeout => true
  | _ => false

/-- AsyncSharedObject.is_valid_value: `value is not None and value is not
cls.INVALID_VALUE` (sharedobj.py:512-514). -/
def is_valid_value {T : Type} : RawValue T → Bool
  | RawValue.val _ => true
  | _ => false

/-- AsyncSharedObject.is_optional_value: `value is not cls.INVALID_VALUE`
(sharedobj.py:516-518). -/
def is_optional_value {T : Type} : RawValue T → Bool
  | RawValue.invalid => false
  | _ => true

/-- Identity comparison with the INVALID sentinel (`x is INVALID_VALUE`). -/
def is_invalid {T : Type} : RawValue T → Bool
  | RawValue.invalid => true
  | _ => false

/-- Result of one run of the `acquire_lock_with_timeout` context manager
(sharedobj.py:237-293 and exclusive.py:79-135, identical bodies): the
outcome seen by the caller, whether the guarded body ran, the final state
of the optional `after_set` / `after_clear` events (None = not supplied),
and whether `exlock.release()` was called in the `finally` block. -/
structure LockCtxResult (A : Type) where
  result : Except PyErr A
  bodyRan : Bool
  after_set : Option Bool
  after_clear : Option Bool
  releaseCalled : Bool

/-- acquire_lock_with_timeout: acquire `exlock` bounded by `timeout`
(oracle `acquireTimesOut`); on timeout raise LockTimeout without running
the body; otherwise run the body.  The `yield` sits inside the try of the
`except asyncio.TimeoutError` clause, so an exception of the
asyncio.TimeoutError family raised by the guarded body (HandlerTimeout in
particular) is also caught there and re-raised as LockTimeout; every other
body exception propagates unchanged.  `done` is true only if the body
finished without an exception, and only then is `after_set` set() and
`after_clear` cleared(); the `finally` block releases the lock whenever
`exlock.locked()` holds at exit (oracle `lockedAtExit`). -/
def acquire_lock_with_timeout {A : Type} (acquireTimesOut : Bool)
    (body : Except PyErr A) (after_set after_clear : Option Bool)
    (lockedAtExit : Bool) : LockCtxResult A :=
  if acquireTimesOut then
    { result := Except.error PyErr.lockTimeout, bodyRan := false,
      after_set := after_set, after_clear := after_clear,
      releaseCalled := lockedAtExit }
  else
    match body with
    | Except.ok a =>
        { result := Except.ok a, bodyRan := true,
          after_set := after_set.map (fun _ => true),
          after_clear := after_clear.map (fun _ => false),
          releaseCalled := lockedAtExit }
    | Except.error e =>
        { result := if is_asyncio_timeout e then
                      Except.error PyErr.lockTimeout
                    else Except.error e,
          bodyRan := true,
          after_set := after_set, after_clear := after_clear,
          releaseCalled := lockedAtExit }

/-- State of one AsyncSharedObject (sharedobj.py:440-461): the slot
`_obj`, the `_closed` flag, the `_default` fallback, the `_updated`
asyncio.Event, the stray `_close` attribute written by `close()`
(sharedobj.py:562, never read), and whether a `_close_handler` was
registered via set_close_handler. -/
structure Cell (T : Type) where
  obj : RawValue T
  closed : Bool
  default : RawValue T
  updated : Bool
  close_flag : Bool
  has_close_handler : Bool

/-- AsyncSharedObject._select_initial_value (sharedobj.py:463-474). -/
def select_initial_value {T : Type} (obj default : RawValue T) : RawValue T :=
  if !is_invalid obj then obj
  else if !is_invalid default then default
  else RawValue.invalid

/-- AsyncSharedObject.__init__ (sharedobj.py:440-461): the slot starts at
`_select_initial_value(obj, default)`, not closed, `_updated` unset. -/
def initCell {T : Type} (obj default : RawValue T) : Cell T :=
  { obj := select_initial_value obj default, closed := false,
    default := default, updated := false, close_flag := false,
    has_close_handler := false }

/-- Observable ordered events of one cell operation: lock acquisition and
release, `self._cond.notify_all()`, and a value handed to
`CleanupTasks.cleanup` after the lock is released. -/
inductive Ev (T : Type) where
  | lockAcquired
  | notifyAll
  | lockReleased
  | cleanupSubmit : RawValue T → Ev T
  deriving DecidableEq

/-- Result of a cell operation: what the caller sees, the new cell state,
and the ordered trace of observable events. -/
structure OpResult (T A : Type) where
  result : Except PyErr A
  cell : Cell T
  trace : List (Ev T)

/-- Number of cleanup submissions in a trace. -/
def countSubmits {T : Type} : List (Ev T) → Nat
  | [] => 0
  | Ev.cleanupSubmit _ :: es => 1 + countSubmits es
  | _ :: es => countSubmits es

/-- AsyncSharedObject.set (sharedobj.py:476-489): under the lock, raise
SharedObjectClosed if closed, else replace the slot and notify all
waiters; the `_updated` event is set when the locked body completes
(the `after_set` argument of the lock guard); after the lock is released
the previous value is handed to cleanup iff `is_valid_value` holds of
it. -/
def setOp {T : Type} (c : Cell T) (v : T) (acquireTimesOut : Bool) :
    OpResult T Unit :=
  if acquireTimesOut then
    { result := Except.error PyErr.lockTimeout, cell := c, trace := [] }
  else if c.closed then
    { result := Except.error PyErr.sharedObjectClosed, cell := c,
      trace := [Ev.lockAcquired, Ev.lockReleased] }
  else if is_valid_value c.obj then
    { result := Except.ok (),
      cell := { c with obj := RawValue.val v, updated := true },
      trace := [Ev.lockAcquired, Ev.notifyAll, Ev.lockReleased,
                Ev.cleanupSubmit c.obj] }
  else
    { result := Except.ok (),
      cell := { c with obj := RawValue.val v, updated := true },
      trace := [Ev.lockAcquired, Ev.notifyAll, Ev.lockReleased] }

/-- AsyncSharedObject.clear (sharedobj.py:492-510): `self._updated.clear()`
before the lock; under the lock, raise SharedObjectClosed if closed, else
`_clear_without_lock` replaces the slot with `self._default`
(sharedobj.py:550-553) and notifies all waiters; after the lock is
released the previous value is handed to cleanup iff `is_valid_value`
holds of it.  (The `complete=` keyword at the call site matches no
parameter of the lock guard, so no event is changed on completion; the
RuntimeError branch for a missing old value is unreachable when the locked
body ran.) -/
def clearOp {T : Type} (c : Cell T) (acquireTimesOut : Bool) :
    OpResult T Unit :=
  if acquireTimesOut then
    { result := Except.error PyErr.lockTimeout,
      cell := { c with updated := false }, trace := [] }
  else if c.closed then
    { result := Except.error PyErr.sharedObjectClosed,
      cell := { c with updated := false },
      trace := [Ev.lockAcquired, Ev.lockReleased] }
  else if is_valid_value c.obj then
    { result := Except.ok (),
      cell := { c with obj := c.default, updated := false },
      trace := [Ev.lockAcquired, Ev.notifyAll, Ev.lockReleased,
                Ev.cleanupSubmit c.obj] }
  else
    { result := Except.ok (),
      cell := { c with obj := c.default, updated := false },
      trace := [Ev.lockAcquired, Ev.notifyAll, Ev.lockReleased] }

/-- Outcome of one AsyncSharedObject.get call (sharedobj.py:520-534):
LockTimeout, SharedObjectClosed, an immediately returned value, or
suspension on `self._cond.wait()` (slot not optional and cell not
closed). -/
inductive GetOutcome (T : Type) where
  | lockTimeout
  | closedErr
  | immediate : RawValue T → GetOutcome T
  | waits
  deriving DecidableEq

/-- AsyncSharedObject.get (sharedobj.py:520-534): under the lock, read the
slot; if `is_optional_value` holds, return it at once; else if closed,
raise SharedObjectClosed; else wait on the condition. -/
def getOp {T : Type} (c : Cell T) (acquireTimesOut : Bool) : GetOutcome T :=
  if acquireTimesOut then GetOutcome.lockTimeout
  else if is_optional_value c.obj then GetOutcome.immediate c.obj
  else if c.closed then GetOutcome.closedErr
  else GetOutcome.waits

/-- AsyncSharedObject.peek (sharedobj.py:537-542): under the lock, return
the raw slot content; there is no closed check. -/
def peekOp {T : Type} (c : Cell T) (acquireTimesOut : Bool) :
    Except PyErr (RawValue T) :=
  if acquireTimesOut then Except.error PyErr.lockTimeout
  else Except.ok c.obj

/-- Result of one AsyncSharedObject.close call (sharedobj.py:559-586):
`blocked` is true when the call is suspended on the unbounded
`await self._updated.wait()` that precedes lock acquisition (the event is
unset); otherwise `result` is what the caller sees, `cell` the new state,
and `handlerArg` the argument the close handler was invoked with (none if
no handler was invoked). -/
structure CloseResult (T : Type) where
  blocked : Bool
  result : Except PyErr (RawValue T)
  cell : Cell T
  handlerArg : Option (RawValue T)

/-- AsyncSharedObject.close (sharedobj.py:559-586): set the stray `_close`
attribute, then `await self._updated.wait()` with no timeout — if the
`_updated` event is unset the call blocks there; then acquire the lock
bounded by `timeout`; if already closed raise SharedObjectClosed; else set
`_closed`, capture the final value, overwrite the slot with INVALID_VALUE
and notify all waiters; outside the lock invoke the close handler (if
registered) with the final value.  The function body has no return
statement, so the caller receives Python None (`RawValue.pynone`). -/
def closeOp {T : Type} (c : Cell T) (acquireTimesOut : Bool) : CloseResult T :=
  if c.updated = false then
    { blocked := true, result := Except.ok RawValue.pynone,
      cell := { c with close_flag := true }, handlerArg := none }
  else if acquireTimesOut then
    { blocked := false, result := Except.error PyErr.lockTimeout,
      cell := { c with close_flag := true }, handlerArg := none }
  else if c.closed then
    { blocked := false, result := Except.error PyErr.sharedObjectClosed,
      cell := { c with close_flag := true }, handlerArg := none }
  else
    { blocked := false, result := Except.ok RawValue.pynone,
      cell := { c with close_flag := true, closed := true, obj := RawValue.invalid },
      handlerArg := if c.has_close_handler then some c.obj else none }

/-- Behaviour of the handler passed to AsyncSharedObject._lock_and_async:
it returned a plain (non-coroutine) result, or a coroutine that completed
within `handler_timeout`, or a coroutine whose await timed out. -/
inductive HandlerRun (A : Type) where
  | syncResult : A → HandlerRun A
  | coroCompleted : A → HandlerRun A
  | coroTimedOut
  deriving DecidableEq

/-- Guarded body of AsyncSharedObject._lock_and_async
(sharedobj.py:656-672), i.e. what runs inside the `async with` block once
the lock is held: raise SharedObjectClosed if closed; invoke the handler
with the unlocked accessor; a plain result is returned as is; a coroutine
result is awaited bounded by `handler_timeout`, and on
`asyncio.TimeoutError` a HandlerTimeout is raised instead. -/
def lock_and_async_body {T A : Type} (c : Cell T) (run : HandlerRun A) :
    Except PyErr A :=
  if c.closed then Except.error PyErr.sharedObjectClosed
  else
    match run with
    | HandlerRun.syncResult a => Except.ok a
    | HandlerRun.coroCompleted a => Except.ok a
    | HandlerRun.coroTimedOut => Except.error PyErr.handlerTimeout

/-- AsyncSharedObject._lock_and_async (sharedobj.py:646-672) as observed
by its caller: the guarded body runs under acquire_lock_with_timeout, so
an exception of the asyncio.TimeoutError family raised by the body — the
HandlerTimeout of the timed-out handler included — is caught at the yield
by the guard's `except asyncio.TimeoutError` clause and re-raised as
LockTimeout (the original exception survives only as `__cause__`). -/
def lock_and_async {T A : Type} (c : Cell T) (acquireTimesOut : Bool)
    (run : HandlerRun A) : Except PyErr A :=
  (acquire_lock_with_timeout acquireTimesOut (lock_and_async_body c run)
    none none true).result

/-- Behaviour of the registered cleanup handler on one submitted value:
absent, synchronous raise, synchronous return, or a returned coroutine
that (when awaited inline) completes, raises, or exceeds the timeout. -/
inductive CleanupHandlerSpec where
  | noHandler
  | syncRaises
  | syncReturns
  | asyncCompleted
  | asyncRaised
  | asyncTimedOut
  deriving DecidableEq

/-- Eventual fate of a task placed in the pending set: the underlying
handler operation runs to completion, or raises inside the task, or the
task wraps a coroutine that was already awaited (cancelled by
`asyncio.wait_for`) and fails at its first step with RuntimeError. -/
inductive TaskFate where
  | runsToCompletion
  | raisesInTask
  | reuseError
  deriving DecidableEq

/-- Outcome of one CleanupTasks.cleanup call (sharedobj.py:134-168):
what the caller of cleanup sees, whether the handler was invoked, the
tasks added to the pending set, and whether an exception was caught and
logged by the surrounding try/except. -/
structure CleanupOutcome where
  result : Except PyErr Unit
  handlerInvoked : Bool
  pendingAdded : List TaskFate
  loggedError : Bool

/-- CleanupTasks.cleanup (sharedobj.py:134-168): with no handler nothing
happens; a synchronous handler runs inline, its exception caught and
logged by the enclosing `except Exception`; a coroutine result under the
detached policy (`runs_in_task`) is wrapped in a fresh task added to
pending; under the inline policy it is awaited via `asyncio.wait_for`
bounded by `timeout` — an exception it raises is caught and logged, and on
timeout, if `resumes`, `asyncio.create_task(result)` re-wraps the
already-cancelled coroutine object (which therefore fails with
RuntimeError at its first step) and adds that task to pending, else the
work is dropped.  The whole body is wrapped in `except Exception`, so
cleanup itself never raises. -/
def cleanup (runs_in_task : Bool) (spec : CleanupHandlerSpec)
    (resumes : Bool) : CleanupOutcome :=
  match spec with
  | CleanupHandlerSpec.noHandler =>
      { result := Except.ok (), handlerInvoked := false,
        pendingAdded := [], loggedError := false }
  | CleanupHandlerSpec.syncRaises =>
      { result := Except.ok (), handlerInvoked := true,
        pendingAdded := [], loggedError := true }
  | CleanupHandlerSpec.syncReturns =>
      { result := Except.ok (), handlerInvoked := true,
        pendingAdded := [], loggedError := false }
  | CleanupHandlerSpec.asyncCompleted =>
      if runs_in_task then
        { result := Except.ok (), handlerInvoked := true,
          pendingAdded := [TaskFate.runsToCompletion], loggedError := false }
      else
        { result := Except.ok (), handlerInvoked := true,
          pendingAdded := [], loggedError := false }
  | CleanupHandlerSpec.asyncRaised =>
      if runs_in_task then
        { result := Except.ok (), handlerInvoked := true,
          pendingAdded := [TaskFate.raisesInTask], loggedError := false }
      else
        { result := Except.ok (), handlerInvoked := true,
          pendingAdded := [], loggedError := true }
  | CleanupHandlerSpec.asyncTimedOut =>
      if runs_in_task then
        { result := Except.ok (), handlerInvoked := true,
          pendingAdded := [TaskFate.runsToCompletion], loggedError := false }
      else if resumes then
        { result := Except.ok (), handlerInvoked := true,
          pendingAdded := [TaskFate.reuseError], loggedError := false }
      else
        { result := Except.ok (), handlerInvoked := true,
          pendingAdded := [], loggedError := false }

/-- Outcome of one CleanupTasks.wait_all call (sharedobj.py:170-199). -/
structure WaitAllOutcome where
  result : Except PyErr Unit
  loggedErrors : Nat
  pendingAfter : List TaskFate
  cancelledCount : Nat

/-- Number of pending tasks that end in an exception (these are the
entries `gather(..., return_exceptions=True)` returns as exceptions). -/
def countTaskErrors : List TaskFate → Nat
  | [] => 0
  | TaskFate.runsToCompletion :: ts => countTaskErrors ts
  | TaskFate.raisesInTask :: ts => 1 + countTaskErrors ts
  | TaskFate.reuseError :: ts => 1 + countTaskErrors ts

/-- CleanupTasks.wait_all (sharedobj.py:170-199): gather every pending
task with `return_exceptions=True` bounded by `all_timeout`; exceptions
are logged, never re-raised, and the pending set is cleared; on overall
timeout the remaining tasks are cancelled and the pending set is cleared;
a final `except Exception` guarantees nothing propagates. -/
def wait_all (pending : List TaskFate) (allTimedOut : Bool) :
    WaitAllOutcome :=
  if allTimedOut then
    { result := Except.ok (), loggedErrors := 0, pendingAfter := [],
      cancelledCount := pending.length }
  else
    { result := Except.ok (), loggedErrors := countTaskErrors pending,
      pendingAfter := [], cancelledCount := 0 }

/-- Identity check against INVALID on the INVALID sentinel itself. -/
@[simp] theorem is_invalid_invalid {T : Type} :
    is_invalid (RawValue.invalid : RawValue T) = true := rfl

/-- A slot content that is not the INVALID sentinel satisfies
is_optional_value. -/
theorem optional_of_not_invalid {T : Type} (v : RawValue T)
    (h : is_invalid v = false) : is_optional_value v = true := by
  cases v <;> simp [is_invalid, is_optional_value] at h ⊢

/-- C1: on an open cell whose handler coroutine exceeds handler_timeout,
_lock_and_async does raise HandlerTimeout inside the guarded body, but
HandlerTimeout subclasses asyncio.TimeoutError and the guard's yield sits
inside its try, so the `except asyncio.TimeoutError` clause of
acquire_lock_with_timeout converts it: the caller of execute_under_lock
observes LockTimeout, not the distinct HandlerTimeout the claim states. -/
theorem handler_timeout_masked_as_lock_timeout :
    lock_and_async_body
        (initCell (RawValue.val 1) (RawValue.invalid : RawValue Nat))
        (HandlerRun.coroTimedOut : HandlerRun Nat)
      = Except.error PyErr.handlerTimeout ∧
    lock_and_async
        (initCell (RawValue.val 1) (RawValue.invalid : RawValue Nat)) false
        (HandlerRun.coroTimedOut : HandlerRun Nat)
      = Except.error PyErr.lockTimeout ∧
    PyErr.lockTimeout ≠ PyErr.handlerTimeout :=
  ⟨rfl, rfl, by decide⟩

/-- The cell obtained by constructing an empty Nat cell, setting 5, then
closing it successfully: `_closed` is set, the slot is INVALID, and the
`_updated` event is on. -/
def closedNatCell : Cell Nat :=
  (closeOp (setOp (initCell RawValue.invalid RawValue.invalid) 5 false).cell
    false).cell

/-- C2 counterexample: on a cell on which close() has succeeded once, a
subsequent peek does not fail with SharedObjectClosed — it returns the raw
INVALID slot content normally (peek has no closed check). -/
theorem peek_after_close_does_not_fail :
    (closeOp (setOp (initCell (RawValue.invalid : RawValue Nat)
        RawValue.invalid) 5 false).cell false).result
      = Except.ok RawValue.pynone ∧
    closedNatCell.closed = true ∧
    peekOp closedNatCell false = Except.ok RawValue.invalid ∧
    peekOp closedNatCell false ≠ Except.error PyErr.sharedObjectClosed :=
  ⟨rfl, rfl, rfl, fun h => nomatch h⟩

/-- C2 (amended): on a cell on which close() has succeeded once (closed
flag set, slot overwritten with INVALID, updated event on), get, set and
clear fail with SharedObjectClosed; peek returns the raw INVALID content
without raising; a second close also fails with SharedObjectClosed and
does not invoke the close handler again. -/
theorem ops_after_close {T : Type} (c : Cell T) (v : T)
    (hc : c.closed = true) (ho : c.obj = RawValue.invalid)
    (hu : c.updated = true) :
    (setOp c v false).result = Except.error PyErr.sharedObjectClosed ∧
    (clearOp c false).result = Except.error PyErr.sharedObjectClosed ∧
    getOp c false = GetOutcome.closedErr ∧
    peekOp c false = Except.ok RawValue.invalid ∧
    (closeOp c false).blocked = false ∧
    (closeOp c false).result = Except.error PyErr.sharedObjectClosed ∧
    (closeOp c false).handlerArg = none := by
  refine ⟨?_, ?_, ?_, ?_, ?_, ?_, ?_⟩ <;>
    simp [setOp, clearOp, getOp, peekOp, closeOp, hc, ho, hu,
      is_optional_value]

/-- Witness for C2 (amended) at the concrete closed cell. -/
theorem ops_after_close_witness :
    (setOp closedNatCell 7 false).result
      = Except.error PyErr.sharedObjectClosed ∧
    (clearOp closedNatCell false).result
      = Except.error PyErr.sharedObjectClosed ∧
    getOp closedNatCell false = GetOutcome.closedErr ∧
    peekOp closedNatCell false = Except.ok RawValue.invalid ∧
    (closeOp closedNatCell false).blocked = false ∧
    (closeOp closedNatCell false).result
      = Except.error PyErr.sharedObjectClosed ∧
    (closeOp closedNatCell false).handlerArg = none :=
  ops_after_close closedNatCell 7 rfl rfl rfl

/-- A Nat cell whose slot holds 5, updated event on, no close handler. -/
def c3Cell : Cell Nat :=
  { obj := RawValue.val 5, closed := false, default := RawValue.invalid,
    updated := true, close_flag := false, has_close_handler := false }

/-- C3: a successful close on a cell whose slot holds 5 hands Python None
back to its caller — the body of close has no return statement — not the
final value 5 that the claim (and the class docstring example
`closed_value = await shared.close()`) promises. -/
theorem close_returns_none_not_final_value :
    (closeOp c3Cell false).blocked = false ∧
    (closeOp c3Cell false).result = Except.ok RawValue.pynone ∧
    (RawValue.pynone : RawValue Nat) ≠ RawValue.val 5 :=
  ⟨rfl, rfl, by decide⟩

/-- C4 counterexample: on a freshly constructed cell that never received a
set (the updated event is unset), close does not proceed to lock
acquisition: it blocks on the unbounded updated-event wait and the slot
never becomes Closed. -/
theorem close_on_never_set_cell_blocks :
    (closeOp (initCell (RawValue.invalid : RawValue Nat) RawValue.invalid)
        false).blocked = true ∧
    (closeOp (initCell (RawValue.invalid : RawValue Nat) RawValue.invalid)
        false).cell.closed = false :=
  ⟨rfl, rfl⟩

/-- C4 (amended): close first waits, with no timeout bound, for the
updated event, which only a completed set turns on: while the event is
unset the call blocks before lock acquisition and the cell does not
transition; once the event is on (and the cell is not yet closed and the
lock is acquired) close transitions the slot to Closed. -/
theorem close_gated_by_updated_event {T : Type} (c : Cell T) (tmo : Bool) :
    (c.updated = false → (closeOp c tmo).blocked = true ∧
      (closeOp c tmo).cell.closed = c.closed) ∧
    (c.updated = true → tmo = false → c.closed = false →
      (closeOp c tmo).blocked = false ∧
      (closeOp c tmo).cell.closed = true) := by
  constructor
  · intro h
    simp [closeOp, h]
  · intro h1 h2 h3
    subst h2
    simp [closeOp, h1, h3]

/-- A Nat cell whose slot holds 2, updated event on. -/
def c4Cell : Cell Nat :=
  { obj := RawValue.val 2, closed := false, default := RawValue.invalid,
    updated := true, close_flag := false, has_close_handler := false }

/-- Witness for C4 (amended) at a concrete cell with the updated event
on. -/
theorem close_gated_by_updated_event_witness :
    (closeOp c4Cell false).blocked = false ∧
    (closeOp c4Cell false).cell.closed = true :=
  (close_gated_by_updated_event c4Cell false).2 rfl rfl rfl

/-- C5 counterexample: a slot holding Python None is a held value by the
claim (which includes None explicitly), yet a successful set over it
submits nothing to the cleanup queue, because is_valid_value rejects
None. -/
theorem set_over_held_none_submits_nothing :
    (initCell (RawValue.pynone : RawValue Nat) RawValue.invalid).obj
      = RawValue.pynone ∧
    (setOp (initCell (RawValue.pynone : RawValue Nat) RawValue.invalid) 7
        false).result = Except.ok () ∧
    countSubmits (setOp (initCell (RawValue.pynone : RawValue Nat)
        RawValue.invalid) 7 false).trace = 0 :=
  ⟨rfl, rfl, rfl⟩

/-- C5 (amended): for a cell whose slot holds a valid value — neither None
nor the INVALID sentinel — a successful set or clear submits exactly that
previous value to the cleanup queue exactly once, after the lock is
released: the event trace is acquire, notify, release, submit. -/
theorem valid_value_submitted_once {T : Type} (c : Cell T) (v : T)
    (hc : c.closed = false) (hv : is_valid_value c.obj = true) :
    (setOp c v false).trace
      = [Ev.lockAcquired, Ev.notifyAll, Ev.lockReleased,
         Ev.cleanupSubmit c.obj] ∧
    (clearOp c false).trace
      = [Ev.lockAcquired, Ev.notifyAll, Ev.lockReleased,
         Ev.cleanupSubmit c.obj] ∧
    countSubmits (setOp c v false).trace = 1 ∧
    countSubmits (clearOp c false).trace = 1 := by
  refine ⟨?_, ?_, ?_, ?_⟩ <;> simp [setOp, clearOp, hc, hv, countSubmits]

/-- A Nat cell whose slot holds the valid value 1. -/
def c5Cell : Cell Nat :=
  { obj := RawValue.val 1, closed := false, default := RawValue.invalid,
    updated := true, close_flag := false, has_close_handler := false }

/-- Witness for C5 (amended) at a concrete cell holding 1. -/
theorem valid_value_submitted_once_witness :
    (setOp c5Cell 2 false).trace
      = [Ev.lockAcquired, Ev.notifyAll, Ev.lockReleased,
         Ev.cleanupSubmit (RawValue.val 1)] ∧
    (clearOp c5Cell false).trace
      = [Ev.lockAcquired, Ev.notifyAll, Ev.lockReleased,
         Ev.cleanupSubmit (RawValue.val 1)] ∧
    countSubmits (setOp c5Cell 2 false).trace = 1 ∧
    countSubmits (clearOp c5Cell false).trace = 1 :=
  valid_value_submitted_once c5Cell 2 rfl rfl

/-- C6: under the inline policy, when the asynchronous cleanup result
exceeds its timeout with resumes true, the task detached into pending
wraps the coroutine object that asyncio.wait_for has already cancelled,
so its fate is the reuse RuntimeError, not running the handler operation
to completion; a later wait_all observes it only as a logged exception. -/
theorem timeout_resume_detaches_dead_task :
    (cleanup false CleanupHandlerSpec.asyncTimedOut true).pendingAdded
      = [TaskFate.reuseError] ∧
    TaskFate.reuseError ≠ TaskFate.runsToCompletion ∧
    (wait_all [TaskFate.reuseError] false).loggedErrors = 1 ∧
    (wait_all [TaskFate.reuseError] false).pendingAfter = [] :=
  ⟨rfl, by decide, rfl, rfl⟩

/-- C7: when lock acquisition does not complete within the timeout,
acquire_lock_with_timeout raises LockTimeout, the guarded body never
runs, and neither the after_set nor the after_clear event is changed. -/
theorem lock_timeout_no_body_no_event_change {A : Type}
    (body : Except PyErr A) (aset aclear : Option Bool)
    (lockedAtExit : Bool) :
    (acquire_lock_with_timeout true body aset aclear lockedAtExit).result
      = Except.error PyErr.lockTimeout ∧
    (acquire_lock_with_timeout true body aset aclear lockedAtExit).bodyRan
      = false ∧
    (acquire_lock_with_timeout true body aset aclear
        lockedAtExit).after_set = aset ∧
    (acquire_lock_with_timeout true body aset aclear
        lockedAtExit).after_clear = aclear := by
  simp [acquire_lock_with_timeout]

/-- C9: CleanupTasks.cleanup never propagates an exception to its caller
and wait_all never propagates one to its caller; the exceptions are
caught and logged — a synchronous handler raise and an inline
asynchronous handler raise are logged by cleanup's enclosing except
clause, and wait_all logs one entry per pending cleanup operation that
ended in an exception; with no handler registered the submitted value is
silently dropped — the handler is not invoked and nothing is added to
pending. -/
theorem cleanup_failures_never_propagate (rit resumes allTimedOut : Bool)
    (spec : CleanupHandlerSpec) (pending : List TaskFate) :
    (cleanup rit spec resumes).result = Except.ok () ∧
    (wait_all pending allTimedOut).result = Except.ok () ∧
    (cleanup rit CleanupHandlerSpec.syncRaises resumes).loggedError
      = true ∧
    (cleanup false CleanupHandlerSpec.asyncRaised resumes).loggedError
      = true ∧
    (wait_all pending false).loggedErrors = countTaskErrors pending ∧
    (cleanup rit CleanupHandlerSpec.noHandler resumes).handlerInvoked
      = false ∧
    (cleanup rit CleanupHandlerSpec.noHandler resumes).pendingAdded
      = [] := by
  refine ⟨?_, ?_, rfl, rfl, rfl, rfl, rfl⟩
  · cases spec <;> cases rit <;> cases resumes <;> rfl
  · cases allTimedOut <;> rfl

/-- C8: a successful clear publishes the configured default into the slot
(the INVALID empty marker when no default is configured), and when a
default is configured a subsequent get returns it immediately instead of
waiting. -/
theorem clear_publishes_default {T : Type} (c : Cell T)
    (hc : c.closed = false) :
    (clearOp c false).result = Except.ok () ∧
    (clearOp c false).cell.obj = c.default ∧
    (is_invalid c.default = false →
      getOp (clearOp c false).cell false
        = GetOutcome.immediate c.default) := by
  have hcell : (clearOp c false).cell.obj = c.default := by
    by_cases hv : is_valid_value c.obj = true
    · simp [clearOp, hc, hv]
    · simp [clearOp, hc, hv]
  refine ⟨?_, hcell, ?_⟩
  · by_cases hv : is_valid_value c.obj = true <;> simp [clearOp, hc, hv]
  · intro hd
    simp [getOp, hcell, optional_of_not_invalid _ hd]

/-- A Nat cell with default 0 whose slot holds 5. -/
def c8Cell : Cell Nat :=
  { obj := RawValue.val 5, closed := false, default := RawValue.val 0,
    updated := true, close_flag := false, has_close_handler := false }

/-- Witness for C8 at a concrete cell with default 0. -/
theorem clear_publishes_default_witness :
    (clearOp c8Cell false).result = Except.ok () ∧
    (clearOp c8Cell false).cell.obj = RawValue.val 0 ∧
    getOp (clearOp c8Cell false).cell false
      = GetOutcome.immediate (RawValue.val 0) :=
  ⟨(clear_publishes_default c8Cell rfl).1,
   (clear_publishes_default c8Cell rfl).2.1,
   (clear_publishes_default c8Cell rfl).2.2 rfl⟩

/-- C10: a cell constructed with no initial value but with a default
supplied starts with the default in its slot, and a first get returns the
default immediately without waiting for any set. -/
theorem default_used_as_initial_value {T : Type} (d : RawValue T)
    (hd : is_invalid d = false) :
    (initCell RawValue.invalid d).obj = d ∧
    getOp (initCell RawValue.invalid d) false = GetOutcome.immediate d := by
  have h1 : (initCell RawValue.invalid d).obj = d := by
    simp [initCell, select_initial_value, hd]
  exact ⟨h1, by simp [getOp, h1, optional_of_not_invalid d hd]⟩

/-- Witness for C10 at the concrete default 3. -/
theorem default_used_as_initial_value_witness :
    (initCell RawValue.invalid (RawValue.val 3 : RawValue Nat)).obj
      = RawValue.val 3 ∧
    getOp (initCell RawValue.invalid (RawValue.val 3 : RawValue Nat)) false
      = GetOutcome.immediate (RawValue.val 3) :=
  default_used_as_initial_value _ rfl

end SharedPotato
